import Mathlib

/-!
Shallow embedding of the `timelapse` crate (turgu1/timelapse): a minimal
elapsed-time profiler built around a single `TimeLapse` struct holding one
monotonic start instant, plus call-site macros.

Modelling choices:
- A monotonic `Instant` is a `Nat` of nanoseconds since an arbitrary epoch;
  `Instant::now()` becomes an explicit `now : Instant` argument at each call.
- A `Duration` is a `Nat` of nanoseconds (Rust durations are non-negative);
  Rust's monotonic `Instant` subtraction saturates at zero, which is exactly
  truncated `Nat` subtraction.
- The `{:?}` rendering of a `Duration` is embedded faithfully from Rust core's
  `impl Debug for Duration` (no formatter precision, as in the crate's uses).
- Side effects are made explicit: `log` returns the list of records routed to
  the logging sink; stdout output is a list of printed lines; a method taking
  `&mut self` returns the updated struct.
-/

namespace Timelapse

/-- The fractional-digit loop of Rust core's `Duration` `Debug` formatter
(`fmt_decimal`): repeatedly extract the leading digit of `fractionalPart`
under `divisor`, stopping when the remaining fraction is zero.  The fuel of 9
mirrors the 9-byte digit buffer; for the actual arguments the loop always
stops on a zero fraction first. -/
def fracDigits : Nat → Nat → Nat → List Char
  | 0, _, _ => []
  | fuel + 1, fractionalPart, divisor =>
    if fractionalPart = 0 then []
    else
      let digit := fractionalPart / divisor
      Char.ofNat (48 + digit) ::
        fracDigits fuel (fractionalPart - digit * divisor) (divisor / 10)

/-- Rust core's `fmt_decimal`: integer part, then `.` and the fractional
digits when any, then the unit text (with no formatter width or precision,
which is how the crate always invokes it). -/
def fmtDecimal (integerPart fractionalPart divisor : Nat) (unitText : String) : String :=
  let digits := fracDigits 9 fractionalPart divisor
  toString integerPart ++
    (if digits.isEmpty then "" else "." ++ String.mk digits) ++ unitText

/-- Rust core's `impl Debug for Duration`: seconds with fractional part when
at least one second, else milliseconds, microseconds or nanoseconds. -/
def durationDebug (d : Nat) : String :=
  let secs := d / 1000000000
  let subsecNanos := d % 1000000000
  if secs > 0 then
    fmtDecimal secs subsecNanos 100000000 "s"
  else if subsecNanos ≥ 1000000 then
    fmtDecimal (subsecNanos / 1000000) (subsecNanos % 1000000) 100000 "ms"
  else if subsecNanos ≥ 1000 then
    fmtDecimal (subsecNanos / 1000) (subsecNanos % 1000) 100 "µs"
  else
    fmtDecimal subsecNanos 0 1 "ns"

/-- Severity levels of the `log` crate's facade. -/
inductive Level where
  | error | warn | info | debug | trace
deriving DecidableEq, Repr

/-- One record routed through the process-wide logging sink. -/
structure LogRecord where
  level : Level
  message : String
deriving DecidableEq, Repr

/-- `pub struct TimeLapse { start_time: Instant }`. -/
structure TimeLapse where
  start_time : Nat
deriving DecidableEq, Repr

/-- `TimeLapse::new`: captures the current monotonic instant. -/
def TimeLapse.new (now : Nat) : TimeLapse :=
  { start_time := now }

/-- `TimeLapse::elapsed`: `self.start_time.elapsed()`, i.e. the monotonic
(saturating) subtraction `now - self.start_time`. -/
def TimeLapse.elapsed (t : TimeLapse) (now : Nat) : Nat :=
  now - t.start_time

/-- `TimeLapse::reset`: `self.start_time = Instant::now()`. -/
def TimeLapse.reset (t : TimeLapse) (now : Nat) : TimeLapse :=
  { t with start_time := now }

/-- `impl Default for TimeLapse`: `fn default() -> Self { Self::new() }`. -/
def TimeLapse.default (now : Nat) : TimeLapse :=
  TimeLapse.new now

/-- `impl Display for TimeLapse`:
`write!(f, "Elapsed time: {:?}", self.elapsed())`. -/
def TimeLapse.displayStr (t : TimeLapse) (now : Nat) : String :=
  "Elapsed time: " ++ durationDebug (t.elapsed now)

/-- `impl Debug for TimeLapse`:
`write!(f, "TimeLapse \x7b\x7b elapsed: {:?} \x7d\x7d", self.elapsed())`. -/
def TimeLapse.debugStr (t : TimeLapse) (now : Nat) : String :=
  "TimeLapse \x7b elapsed: " ++ durationDebug (t.elapsed now) ++ " \x7d"

/-- `TimeLapse::log`:
`info!("TimeLapse {} - Elapsed time: {:?}", name, self.elapsed())`, embedded
as the list of records the call routes to the logging sink. -/
def TimeLapse.log (t : TimeLapse) (name : String) (now : Nat) : List LogRecord :=
  [{ level := Level.info,
     message := "TimeLapse " ++ name ++ " - Elapsed time: " ++
       durationDebug (t.elapsed now) }]

/-- `profile_start!(name)` expands to `let name = TimeLapse::new();`. -/
def profile_start (now : Nat) : TimeLapse :=
  TimeLapse.new now

/-- `profile_end!(name)` expands to `name.log(stringify!(name));`, where
`stringify!` produces the literal identifier text; `nameText` is that text. -/
def profile_end (name : TimeLapse) (nameText : String) (now : Nat) : List LogRecord :=
  name.log nameText now

/-- The spec's description of `start(name)`: "binds a new Timer value to the
given name in the caller's scope, equivalent to `name = create()`". -/
def spec_start (now : Nat) : TimeLapse :=
  TimeLapse.new now

/-- The spec's description of `end(name)`: "equivalent to
`log(name, "<name>")` — label defaults to the literal identifier used at the
start call". -/
def spec_end (name : TimeLapse) (identText : String) (now : Nat) : List LogRecord :=
  name.log identText now

/-- Modelled from the spec: the `profile_end_print!` macro is declared by the
crate's 0.1.3 changelog in `lib.rs` but its definition is absent from the
sources; per the spec it is "equivalent to `end`, but writes the message
directly to the standard output stream instead of through the logging sink".
The result is the list of lines written to stdout. -/
def profile_end_print (name : TimeLapse) (nameText : String) (now : Nat) : List String :=
  ["TimeLapse " ++ nameText ++ " - Elapsed time: " ++
    durationDebug (name.elapsed now)]

/-- Modelled from the spec: the `profile_end_log!` macro is declared by the
crate's 0.1.3 changelog in `lib.rs` but its definition is absent from the
sources; per the spec it is "equivalent to `end`, but lets the caller select
the emitted log record's severity level explicitly". -/
def profile_end_log (name : TimeLapse) (nameText : String) (lvl : Level) (now : Nat) :
    List LogRecord :=
  [{ level := lvl,
     message := "TimeLapse " ++ nameText ++ " - Elapsed time: " ++
       durationDebug (name.elapsed now) }]

/-- An observable operation on a timer, tagged with the clock reading at the
moment of the call. -/
inductive Op where
  | elapsedQ : Nat → Op
  | resetQ : Nat → Op
deriving DecidableEq

/-- One operation applied to a timer: `elapsed` takes `&self` and so returns
the state unchanged with its result; `reset` takes `&mut self` and returns
the updated state. -/
def step (t : TimeLapse) : Op → TimeLapse × Option Nat
  | Op.elapsedQ now => (t, some (t.elapsed now))
  | Op.resetQ now => (t.reset now, none)

/-- Run a sequence of operations, collecting the durations returned. -/
def runOps : TimeLapse → List Op → TimeLapse × List Nat
  | t, [] => (t, [])
  | t, op :: ops =>
    ((runOps (step t op).1 ops).1,
      (step t op).2.toList ++ (runOps (step t op).1 ops).2)

/-- C1: for every timer `t` and label `name`, `log` routes exactly one record
to the sink, at informational severity, whose message is exactly
`"TimeLapse <name> - Elapsed time: <d>"` with `<d>` the debug rendering of
the elapsed duration at call time; no call emits zero or more than one
record. -/
theorem log_emits_exactly_one_info_record (t : TimeLapse) (name : String) (now : Nat) :
    t.log name now =
      [{ level := Level.info,
         message := "TimeLapse " ++ name ++ " - Elapsed time: " ++
           durationDebug (t.elapsed now) }] ∧
    (t.log name now).length = 1 :=
  ⟨rfl, rfl⟩

/-- C2: `elapsed` is the monotonic (saturating) subtraction `now - start_time`,
which agrees with exact integer subtraction whenever `start_time` is a
past-or-present instant; the result is non-negative; and after a reset at `r`
the value measures from `r`, not from any earlier state. -/
theorem elapsed_is_monotonic_subtraction (t : TimeLapse) (now : Nat)
    (h : t.start_time ≤ now) :
    t.elapsed now = now - t.start_time ∧
    (t.elapsed now : Int) = (now : Int) - (t.start_time : Int) ∧
    0 ≤ t.elapsed now ∧
    ∀ r q : Nat, (t.reset r).elapsed q = q - r := by
  refine ⟨rfl, ?_, Nat.zero_le _, fun r q => rfl⟩
  simp only [TimeLapse.elapsed]
  exact Nat.cast_sub h

/-- C2 witness: the theorem at the concrete timer started at instant 3,
measured at instant 10. -/
theorem elapsed_is_monotonic_subtraction_witness :
    (TimeLapse.new 3).elapsed 10 = 10 - (TimeLapse.new 3).start_time ∧
    ((TimeLapse.new 3).elapsed 10 : Int) =
      (10 : Int) - ((TimeLapse.new 3).start_time : Int) ∧
    0 ≤ (TimeLapse.new 3).elapsed 10 ∧
    ∀ r q : Nat, ((TimeLapse.new 3).reset r).elapsed q = q - r :=
  elapsed_is_monotonic_subtraction (TimeLapse.new 3) 10 (by decide)

/-- C3: `profile_end_print` writes exactly the one line `end` would have
logged, directly to stdout rather than the sink; `profile_end_log` emits the
same single message as `end` but at the caller-selected severity, and at the
informational level it coincides with `end` exactly. -/
theorem end_print_end_log_behave_like_end (name : TimeLapse) (nameText : String)
    (lvl : Level) (now : Nat) :
    profile_end_print name nameText now =
      (profile_end name nameText now).map LogRecord.message ∧
    (profile_end_print name nameText now).length = 1 ∧
    profile_end_log name nameText lvl now =
      (profile_end name nameText now).map
        (fun r => { level := lvl, message := r.message }) ∧
    profile_end_log name nameText Level.info now = profile_end name nameText now := by
  exact ⟨rfl, rfl, rfl, rfl⟩

/-- C4: the `profile_start!` expansion is exactly the spec's
`name = create()`, and the `profile_end!` expansion is exactly the spec's
`log(name, "<name>")` with the literal identifier text as the label. -/
theorem start_end_macros_refine_spec (now : Nat) (t : TimeLapse) (identText : String) :
    profile_start now = spec_start now ∧
    profile_start now = TimeLapse.new now ∧
    profile_end t identText now = spec_end t identText now ∧
    profile_end t identText now = t.log identText now :=
  ⟨rfl, rfl, rfl, rfl⟩

/-- C5 counterexample: a timer created at instant 0 whose elapsed value is
recorded at instant 0 records the duration 0; after a reset at instant 5,
the elapsed value taken immediately (at instant 5) is also 0 — not strictly
smaller than the recorded pre-reset value, refuting "smaller than any
elapsed value recorded before the reset" as stated. -/
theorem reset_not_strictly_smaller :
    ¬ ((TimeLapse.new 0).reset 5).elapsed 5 < (TimeLapse.new 0).elapsed 0 := by
  decide

/-- C5 amended: `reset` overwrites `start_time` with the current instant, so
every subsequent `elapsed` measures from the new reference point; an elapsed
value taken immediately after the reset is at most any elapsed value recorded
before the reset, and strictly smaller whenever that recorded value is
positive. -/
theorem reset_restarts_measurement (t : TimeLapse) (r q now : Nat) :
    (t.reset r).start_time = r ∧
    (t.reset r).elapsed now = now - r ∧
    (t.reset r).elapsed r ≤ t.elapsed q ∧
    (0 < t.elapsed q → (t.reset r).elapsed r < t.elapsed q) := by
  refine ⟨rfl, rfl, ?_, fun hq => ?_⟩
  · show r - r ≤ q - t.start_time
    omega
  · have hq2 : 0 < q - t.start_time := hq
    show r - r < q - t.start_time
    omega

/-- C5 witness: the amended theorem at a timer created at 0, its elapsed
value recorded at instant 7, reset at instant 10 and re-measured there. -/
theorem reset_restarts_measurement_witness :
    ((TimeLapse.new 0).reset 10).elapsed 10 < (TimeLapse.new 0).elapsed 7 :=
  (reset_restarts_measurement (TimeLapse.new 0) 10 7 10).2.2.2 (by decide)

/-- C6: the default rendering is exactly
`"Elapsed time: <d>"` with `<d>` the textual rendering of the current
elapsed duration; at a concrete state one and a half seconds after the start
it reads `"Elapsed time: 1.5s"`. -/
theorem render_default_form (t : TimeLapse) (now : Nat) :
    t.displayStr now = "Elapsed time: " ++ durationDebug (t.elapsed now) ∧
    (TimeLapse.new 0).displayStr 1500000000 = "Elapsed time: 1.5s" :=
  ⟨rfl, by decide⟩

/-- C7: the debug rendering is exactly
`"TimeLapse \x7b elapsed: <d> \x7d"` with `<d>` the rendering of the current
elapsed duration, and for the same timer state it is textually distinct from
the default rendering. -/
theorem render_debug_form_and_distinct (t : TimeLapse) (now : Nat) :
    t.debugStr now =
      "TimeLapse \x7b elapsed: " ++ durationDebug (t.elapsed now) ++ " \x7d" ∧
    t.debugStr now ≠ t.displayStr now := by
  refine ⟨rfl, fun h => ?_⟩
  have hlen := congrArg String.length h
  simp only [TimeLapse.debugStr, TimeLapse.displayStr, String.length_append] at hlen
  have h1 : ("TimeLapse \x7b elapsed: " : String).length = 21 := by decide
  have h2 : (" \x7d" : String).length = 2 := by decide
  have h3 : ("Elapsed time: " : String).length = 14 := by decide
  rw [h1, h2, h3] at hlen
  omega

/-- C8: `elapsed` is a pure query: running any sequence of `elapsed` calls
leaves the timer's state (its `start_time`) unchanged, and each call's result
depends only on the start instant and that call's clock reading, not on how
many `elapsed` calls preceded it. -/
theorem elapsed_is_pure_query (t : TimeLapse) (nows : List Nat) :
    (runOps t (nows.map Op.elapsedQ)).1 = t ∧
    (runOps t (nows.map Op.elapsedQ)).2 = nows.map (fun n => t.elapsed n) := by
  induction nows with
  | nil => exact ⟨rfl, rfl⟩
  | cons n ns ih =>
    simp only [List.map_cons, runOps, step, Option.toList, List.singleton_append]
    exact ⟨ih.1, by rw [ih.2]⟩

/-- C9: if at least `d` of clock time passes between creation (or last reset)
and the measurement, the returned duration is at least `d`; and elapsed
values taken at later clock instants without an intervening reset are
monotonically non-decreasing. -/
theorem elapsed_monotone (t : TimeLapse) (d now n1 n2 : Nat)
    (hd : t.start_time + d ≤ now) (h12 : n1 ≤ n2) :
    d ≤ t.elapsed now ∧ t.elapsed n1 ≤ t.elapsed n2 := by
  refine ⟨?_, ?_⟩
  · show d ≤ now - t.start_time
    omega
  · show n1 - t.start_time ≤ n2 - t.start_time
    omega

/-- C9 witness: the theorem at a timer started at instant 2, with 5
nanoseconds guaranteed to have passed by instant 8, and readings at 4 and 9. -/
theorem elapsed_monotone_witness :
    5 ≤ (TimeLapse.new 2).elapsed 8 ∧
    (TimeLapse.new 2).elapsed 4 ≤ (TimeLapse.new 2).elapsed 9 :=
  elapsed_monotone (TimeLapse.new 2) 5 8 4 9 (by decide) (by decide)

/-- C10: `Default::default` calls `Self::new()`, so a default-constructed
timer equals one from `new` at the same instant, its `start_time` is that
instant, and its elapsed values coincide with those of a `new` timer. -/
theorem default_equals_new (now q : Nat) :
    TimeLapse.default now = TimeLapse.new now ∧
    (TimeLapse.default now).start_time = now ∧
    (TimeLapse.default now).elapsed q = (TimeLapse.new now).elapsed q :=
  ⟨rfl, rfl, rfl⟩

end Timelapse
